import Mathlib

/-!
Shallow embedding of the restaurant-finder conversational UI state logic
(src/react-app/src/pages/ForgotPasswordPage.js, RestaurantFinderPage component,
together with the rating presentations in src/react-app/src/components/ChatMessage.js,
src/react-app/src/components/GoogleMap.js and the ChatMessage variants under
src/unnamed/).  JavaScript objects become structures, optional / possibly
`undefined` fields become `Option`, and the React state transitions become
explicit functions on a `PageState` record.
-/

namespace RestaurantFinder

/-- A restaurant record as consumed by the React UI.  Only the fields the
modelled logic inspects are carried: `name`, `latitude`, `longitude` are the
fields compared by `isRestaurantSelected` (ChatMessage.js), and they serve as
the venue identity.  Coordinates are opaque numeric values, embedded as `Int`
since the code only ever compares them for equality. -/
structure Venue where
  name : String
  latitude : Int
  longitude : Int
deriving DecidableEq, Repr

/-- Venue identity comparison, from `isRestaurantSelected` in ChatMessage.js:
`restaurant.name === selected.name && restaurant.latitude === selected.latitude
&& restaurant.longitude === selected.longitude`. -/
def sameVenue (a b : Venue) : Bool :=
  a.name == b.name && a.latitude == b.latitude && a.longitude == b.longitude

/-- A chat message: `{ role, content, restaurants? }`.  User messages are
created without a `restaurants` field, hence the `Option`. -/
structure Message where
  role : String
  content : String
  restaurants : Option (List Venue)
deriving DecidableEq, Repr

/-- `msg.restaurants` read with the `|| []` / `?.length || 0` defaulting the
UI applies when the field is absent. -/
def restaurantsOf (m : Message) : List Venue := m.restaurants.getD []

/-- `allRestaurants` (ForgotPasswordPage.js lines 315-320 and 1240-1245):
`messages.reduce((acc, msg) => msg.restaurants && msg.restaurants.length > 0 ?
[...acc, ...msg.restaurants] : acc, [])`. -/
def allRestaurants (messages : List Message) : List Venue :=
  messages.foldl
    (fun acc msg =>
      match msg.restaurants with
      | some rs => if rs.length > 0 then acc ++ rs else acc
      | none => acc)
    []

/-- `startingIndex` computed per message while rendering
(ForgotPasswordPage.js lines 855-859):
`messages.slice(0, index).reduce((count, msg) => count + (msg.restaurants?.length || 0), 0)`. -/
def startingIndex (messages : List Message) (index : Nat) : Nat :=
  (messages.take index).foldl (fun count msg => count + (restaurantsOf msg).length) 0

/-- The number printed on the k-th restaurant card of the message at
position `index` (ChatMessage renders `startingIndex + index + 1`). -/
def cardLabel (messages : List Message) (index k : Nat) : Nat :=
  startingIndex messages index + k + 1

/-- The `activeFilters` React state
(`{ cuisine, price_level, rating, distance, dietary, sort_by }`). -/
structure FilterState where
  cuisine : Option String
  price_level : Option Nat
  rating : Option Nat
  distance : Nat
  dietary : List String
  sort_by : Option String
deriving DecidableEq, Repr

/-- Initial `activeFilters` value (ForgotPasswordPage.js lines 289-296). -/
def defaultFilterState : FilterState :=
  { cuisine := none, price_level := none, rating := none,
    distance := 5, dietary := [], sort_by := none }

/-- `handleClearAllFilters` (lines 630-641): replaces the whole filter state,
in a single `setActiveFilters` call, with the default record. -/
def clearAllFilters (_fs : FilterState) : FilterState :=
  { cuisine := none, price_level := none, rating := none,
    distance := 5, dietary := [], sort_by := none }

/-- The six field names a `handleRemoveFilter` call site passes as
`filterType` (the chip close buttons in the active-filters bar,
lines 713-767). -/
inductive FilterField where
  | cuisine
  | price_level
  | rating
  | distance
  | dietary
  | sort_by
deriving DecidableEq, Repr

/-- The raw `activeFilters` object as `handleRemoveFilter` produces it:
every field of the JavaScript object can be null, including `distance` and
`dietary`, because `updated[filterType] = null` can write any of them. -/
structure ActiveFilters where
  cuisine : Option String
  price_level : Option Nat
  rating : Option Nat
  distance : Option Nat
  dietary : Option (List String)
  sort_by : Option String
deriving DecidableEq, Repr

/-- The spread `{ ...activeFilters }` of a well-formed filter state (every
writer other than `handleRemoveFilter` keeps `distance` a number and
`dietary` an array). -/
def rawOf (fs : FilterState) : ActiveFilters :=
  { cuisine := fs.cuisine, price_level := fs.price_level, rating := fs.rating,
    distance := some fs.distance, dietary := some fs.dietary, sort_by := fs.sort_by }

/-- JavaScript truthiness of the `value` parameter (a string or the default
null): null and the empty string are falsy, every other string is truthy. -/
def isTruthy : Option String → Bool
  | none => false
  | some s => decide (s ≠ "")

/-- `updated[filterType] = null` (line 623): the named field — whichever of
the six it is — is set to null. -/
def setFieldNull (fs : ActiveFilters) : FilterField → ActiveFilters
  | .cuisine => { fs with cuisine := none }
  | .price_level => { fs with price_level := none }
  | .rating => { fs with rating := none }
  | .distance => { fs with distance := none }
  | .dietary => { fs with dietary := none }
  | .sort_by => { fs with sort_by := none }

/-- `handleRemoveFilter(filterType, value = null)` (lines 616-628), applied
to the current well-formed filter state:
`if (filterType === 'dietary' && value)` filters the tag out of the dietary
array — the truthiness check means this branch runs only for a non-empty
tag; `else if (filterType === 'distance')` resets distance to 5; otherwise
`updated[filterType] = null` nulls the named field, so a dietary removal
whose `value` is falsy (missing, or the empty-string tag) nulls the entire
dietary field. -/
def handleRemoveFilter (fs : FilterState) (filterType : FilterField)
    (value : Option String) : ActiveFilters :=
  if filterType = FilterField.dietary ∧ isTruthy value = true then
    { rawOf fs with dietary := some (fs.dietary.filter (fun d => some d ≠ value)) }
  else if filterType = FilterField.distance then
    { rawOf fs with distance := some 5 }
  else
    setFieldNull (rawOf fs) filterType

/-- One conversation: `{ messages, restaurants, sessionId }`. -/
structure Conversation where
  messages : List Message
  restaurants : List Venue
  sessionId : Option String
deriving DecidableEq, Repr

/-- The fresh conversation value used at initialisation, by
`handleNewConversation` and by `handleDeleteConversation`:
`{ messages: [], restaurants: [], sessionId: null }`. -/
def emptyConversation : Conversation :=
  { messages := [], restaurants := [], sessionId := none }

/-- The React page state the claims are about: the `conversations` array,
`currentConversationIndex`, and `activeFilters`. -/
structure PageState where
  conversations : List Conversation
  currentIndex : Nat
  activeFilters : FilterState
deriving DecidableEq, Repr

/-- `conversations[currentConversationIndex]`, totalised with the empty
conversation out of range (reachable states keep the index in range). -/
def currentConv (st : PageState) : Conversation :=
  (st.conversations.get? st.currentIndex).getD emptyConversation

/-- `data.filter_state.filters` as sent by the backend: every field may be
absent in the JSON, and the UI applies `|| []` only to `dietary`. -/
structure BackendFilters where
  cuisine : Option String
  price_level : Option Nat
  rating : Option Nat
  distance : Nat
  dietary : Option (List String)
  sort_by : Option String
deriving DecidableEq, Repr

/-- The `setActiveFilters` call in the success branch (lines 516-523). -/
def filtersFromBackend (f : BackendFilters) : FilterState :=
  { cuisine := f.cuisine, price_level := f.price_level, rating := f.rating,
    distance := f.distance, dietary := f.dietary.getD [], sort_by := f.sort_by }

/-- The parsed `/api/search` response body.  `filter_state` stands for the
`data.filter_state && data.filter_state.filters` access (absent when either
level is missing). -/
structure BackendResponse where
  success : Bool
  responseText : String
  restaurants : Option (List Venue)
  session_id : Option String
  error : String
  filter_state : Option BackendFilters
deriving DecidableEq, Repr

/-- Outcome of the `fetch`: a parsed response, or a thrown network error
(the `catch` branch). -/
inductive FetchOutcome where
  | ok (data : BackendResponse)
  | networkError (msg : String)
deriving DecidableEq, Repr

/-- `{ role: 'user', content: inputText }` — no `restaurants` field. -/
def userMessage (q : String) : Message :=
  { role := "user", content := q, restaurants := none }

/-- The assistant message appended for a given fetch outcome: the success
branch attaches `data.restaurants` verbatim, the two error branches build a
plain text message. -/
def responseMessage : FetchOutcome → Message
  | .ok d =>
    if d.success then
      { role := "assistant", content := d.responseText, restaurants := d.restaurants }
    else
      { role := "assistant", content := "Error: " ++ d.error, restaurants := none }
  | .networkError msg =>
    { role := "assistant", content := "Error connecting to server: " ++ msg, restaurants := none }

/-- First half of `handleSend` (lines 468-474): append the user message to
the current conversation, keeping its other fields. -/
def appendUserMessage (st : PageState) (q : String) : PageState :=
  let conv := currentConv st
  { st with
    conversations := st.conversations.set st.currentIndex
      { conv with messages := conv.messages ++ [userMessage q] } }

/-- Second half of `handleSend` (lines 491-561), applied to the state that
already holds the user message.  On `data.success` the current conversation
is rebuilt with the assistant message, `data.restaurants ||` the previous
list, and `data.session_id`, and `activeFilters` is replaced when
`data.filter_state.filters` is present; on a reported failure or a thrown
error only an error message is appended. -/
def applyResponse (st : PageState) (o : FetchOutcome) : PageState :=
  let conv := currentConv st
  match o with
  | .ok d =>
    if d.success then
      let conv2 : Conversation :=
        { messages := conv.messages ++ [responseMessage (.ok d)]
          restaurants := d.restaurants.getD conv.restaurants
          sessionId := d.session_id }
      let st2 := { st with conversations := st.conversations.set st.currentIndex conv2 }
      match d.filter_state with
      | some f => { st2 with activeFilters := filtersFromBackend f }
      | none => st2
    else
      { st with
        conversations := st.conversations.set st.currentIndex
          { conv with messages := conv.messages ++ [responseMessage (.ok d)] } }
  | .networkError msg =>
      { st with
        conversations := st.conversations.set st.currentIndex
          { conv with messages := conv.messages ++ [responseMessage (.networkError msg)] } }

/-- A full `handleSend` turn: user message appended, then the fetch outcome
applied. -/
def handleSend (st : PageState) (q : String) (o : FetchOutcome) : PageState :=
  applyResponse (appendUserMessage st q) o

/-- The modelled fields of the `/api/search` request body (lines 482-488). -/
structure SearchRequest where
  query : String
  session_id : Option String
  active_filters : FilterState
deriving DecidableEq, Repr

/-- The request body `handleSend` submits from a given page state:
`session_id: currentConversation.sessionId`, `active_filters: activeFilters`. -/
def buildRequest (st : PageState) (q : String) : SearchRequest :=
  { query := q, session_id := (currentConv st).sessionId, active_filters := st.activeFilters }

/-- `handleNewConversation` (lines 568-573): append a fresh conversation and
point the index at it. -/
def newConversation (st : PageState) : PageState :=
  { st with
    conversations := st.conversations ++ [emptyConversation]
    currentIndex := st.conversations.length }

/-- `conversations.filter((_, index) => index !== currentConversationIndex)`,
embedded literally as an index-aware filter. -/
def removeAtIndex (l : List Conversation) (i : Nat) : List Conversation :=
  (l.enum.filter (fun p => p.1 ≠ i)).map Prod.snd

/-- `handleDeleteConversation` (lines 599-614): a single conversation is
replaced by a fresh one; otherwise the current one is filtered out and the
index clamped when it fell off the end. -/
def deleteConversation (st : PageState) : PageState :=
  if st.conversations.length = 1 then
    { st with conversations := [emptyConversation] }
  else
    let updated := removeAtIndex st.conversations st.currentIndex
    let idx :=
      if updated.length ≤ st.currentIndex then updated.length - 1 else st.currentIndex
    { st with conversations := updated, currentIndex := idx }

/-- `handlePreviousConversation` (lines 585-590). -/
def prevConversation (st : PageState) : PageState :=
  if 0 < st.currentIndex then { st with currentIndex := st.currentIndex - 1 } else st

/-- `handleNextConversation` (lines 592-597). -/
def nextConversation (st : PageState) : PageState :=
  if st.currentIndex < st.conversations.length - 1 then
    { st with currentIndex := st.currentIndex + 1 }
  else st

/-- `loadConversationsFromStorage` (lines 243-258): the stored value is used
only when it parses to a non-empty array; missing or invalid data falls back
to one empty conversation.  `none` stands for a missing key, a JSON parse
error, or a non-array value. -/
def loadConversationsFromStorage (stored : Option (List Conversation)) : List Conversation :=
  match stored with
  | some parsed => if parsed.length > 0 then parsed else [emptyConversation]
  | none => [emptyConversation]

/-- The page state on first render: conversations loaded from storage,
index 0, default filters. -/
def initState (stored : Option (List Conversation)) : PageState :=
  { conversations := loadConversationsFromStorage stored
    currentIndex := 0
    activeFilters := defaultFilterState }

/-- The user-level operations that mutate the conversation list. -/
inductive PageOp where
  | send (q : String) (o : FetchOutcome)
  | newConv
  | deleteConv
  | prevConv
  | nextConv
deriving Repr

/-- One operation applied to the page state. -/
def stepOp (st : PageState) : PageOp → PageState
  | .send q o => handleSend st q o
  | .newConv => newConversation st
  | .deleteConv => deleteConversation st
  | .prevConv => prevConversation st
  | .nextConv => nextConversation st

/-- A whole interaction: a sequence of operations from an initial state. -/
def runOps (st : PageState) (ops : List PageOp) : PageState :=
  ops.foldl stepOp st

/-- Page state together with the `loading` flag that gates `handleSend`. -/
structure UiState where
  page : PageState
  loading : Bool
deriving DecidableEq, Repr

/-- `!inputText.trim()` is truthy exactly when the input trims to the empty
string, i.e. every character is whitespace. -/
def isBlankQuery (q : String) : Bool := q.data.all Char.isWhitespace

/-- The synchronous opening of `handleSend` (lines 460-474):
`if (!inputText.trim() || loading) return;` — an attempt made with a blank
query or while a request is still in flight returns without touching any
state; otherwise `loading` is set and the user message committed. -/
def uiAttemptSend (st : UiState) (q : String) : UiState :=
  if isBlankQuery q || st.loading then st
  else { page := appendUserMessage st.page q, loading := true }

/-- Completion of the in-flight request: the response handling of
`handleSend`, then `finally { setLoading(false) }`. -/
def uiCompleteSend (st : UiState) (o : FetchOutcome) : UiState :=
  { page := applyResponse st.page o, loading := false }

/-- Interleaved send events as the browser sees them: an attempt to submit a
turn, or the completion of the in-flight request. -/
inductive UiEvent where
  | attempt (q : String)
  | complete (o : FetchOutcome)
deriving Repr

/-- One UI event applied to the UI state. -/
def uiStep (st : UiState) : UiEvent → UiState
  | .attempt q => uiAttemptSend st q
  | .complete o => uiCompleteSend st o

/-- A trace of UI events from a state. -/
def runUi (st : UiState) (events : List UiEvent) : UiState :=
  events.foldl uiStep st

/-- The UI state on first render with nothing in storage. -/
def uiInitState : UiState :=
  { page := initState none, loading := false }

/-- Rating chip of the restaurant card in
src/react-app/src/components/ChatMessage.js (line 99): the JSX fragment
`{restaurant.rating}/10`, as a function of the rendered rating numeral. -/
def chatCardRatingChip (rating : String) : String :=
  rating ++ "/10"

/-- Rating chip of the restaurant card in the ChatMessage variant at
src/unnamed/part_007 (line 557): the JSX fragment `{restaurant.rating}/5`. -/
def chatCardRatingChipAlt (rating : String) : String :=
  rating ++ "/5"

/-- Rating line of the map marker info window
(src/react-app/src/components/GoogleMap.js line 200), as a function of the
rendered rating numeral. -/
def mapInfoRatingLine (rating : String) : String :=
  "<div style=\"margin: 5px 0; font-size: 14px;\">⭐ <b>" ++ rating ++ "</b> / 10.0</div>"

/-- The out-of-five rendering the specification describes: the rating
numeral presented as a value on the 0-5 scale. -/
def specRatingOutOfFive (rating : String) : String :=
  rating ++ "/5"

/-- Whether a fetch outcome is a Failed terminal state: the backend reported
failure (`data.success` falsy) or the request threw. -/
def isFailedOutcome : FetchOutcome → Bool
  | .ok d => !d.success
  | .networkError _ => true

/-! ### Helper lemmas -/

theorem allRestaurants_foldl_aux (msgs : List Message) :
    ∀ acc : List Venue,
      msgs.foldl
        (fun acc msg =>
          match msg.restaurants with
          | some rs => if rs.length > 0 then acc ++ rs else acc
          | none => acc)
        acc
      = acc ++ (msgs.map restaurantsOf).flatten := by
  induction msgs with
  | nil => intro acc; simp
  | cons m rest ih =>
    intro acc
    have hstep :
        (match m.restaurants with
         | some rs => if rs.length > 0 then acc ++ rs else acc
         | none => acc) = acc ++ restaurantsOf m := by
      cases hr : m.restaurants with
      | none => simp [restaurantsOf, hr]
      | some rs =>
        cases rs with
        | nil => simp [restaurantsOf, hr]
        | cons v vs => simp [restaurantsOf, hr]
    simp only [List.foldl_cons, hstep, List.map_cons, List.flatten_cons, ih,
      List.append_assoc]

theorem allRestaurants_eq_flatten (msgs : List Message) :
    allRestaurants msgs = (msgs.map restaurantsOf).flatten := by
  simpa using allRestaurants_foldl_aux msgs []

theorem foldl_add_length_aux (l : List Message) :
    ∀ n : Nat,
      l.foldl (fun count msg => count + (restaurantsOf msg).length) n
        = n + l.foldl (fun count msg => count + (restaurantsOf msg).length) 0 := by
  induction l with
  | nil => intro n; simp
  | cons m rest ih =>
    intro n
    simp only [List.foldl_cons]
    rw [ih (n + (restaurantsOf m).length), ih (0 + (restaurantsOf m).length)]
    omega

theorem startingIndex_zero (msgs : List Message) : startingIndex msgs 0 = 0 := rfl

theorem startingIndex_cons_succ (m : Message) (ms : List Message) (i : Nat) :
    startingIndex (m :: ms) (i + 1) = (restaurantsOf m).length + startingIndex ms i := by
  simp only [startingIndex, List.take_succ_cons, List.foldl_cons]
  rw [foldl_add_length_aux]
  omega

theorem currentConv_set_self (st : PageState) (c : Conversation)
    (h : st.currentIndex < st.conversations.length) :
    currentConv { st with conversations := st.conversations.set st.currentIndex c } = c := by
  simp [currentConv, List.get?_eq_getElem?, List.getElem?_set_self h]

theorem length_appendUserMessage (st : PageState) (q : String) :
    (appendUserMessage st q).conversations.length = st.conversations.length := by
  simp [appendUserMessage]

theorem currentIndex_appendUserMessage (st : PageState) (q : String) :
    (appendUserMessage st q).currentIndex = st.currentIndex := rfl

theorem activeFilters_appendUserMessage (st : PageState) (q : String) :
    (appendUserMessage st q).activeFilters = st.activeFilters := rfl

theorem currentConv_appendUserMessage (st : PageState) (q : String)
    (h : st.currentIndex < st.conversations.length) :
    currentConv (appendUserMessage st q)
      = { currentConv st with messages := (currentConv st).messages ++ [userMessage q] } := by
  exact currentConv_set_self st _ h

theorem length_applyResponse (st : PageState) (o : FetchOutcome) :
    (applyResponse st o).conversations.length = st.conversations.length := by
  cases o with
  | ok d =>
    by_cases hs : d.success = true
    · cases hf : d.filter_state <;> simp [applyResponse, hs, hf]
    · simp [applyResponse, hs]
  | networkError msg => simp [applyResponse]

theorem currentIndex_applyResponse (st : PageState) (o : FetchOutcome) :
    (applyResponse st o).currentIndex = st.currentIndex := by
  cases o with
  | ok d =>
    by_cases hs : d.success = true
    · cases hf : d.filter_state <;> simp [applyResponse, hs, hf]
    · simp [applyResponse, hs]
  | networkError msg => simp [applyResponse]

theorem messages_currentConv_applyResponse (st : PageState) (o : FetchOutcome)
    (h : st.currentIndex < st.conversations.length) :
    (currentConv (applyResponse st o)).messages
      = (currentConv st).messages ++ [responseMessage o] := by
  cases o with
  | ok d =>
    by_cases hs : d.success = true
    · cases hf : d.filter_state <;>
        simp [applyResponse, hs, hf, currentConv, List.get?_eq_getElem?,
          List.getElem?_set_self h]
    · simp [applyResponse, hs, currentConv, List.get?_eq_getElem?,
        List.getElem?_set_self h]
  | networkError msg =>
    simp [applyResponse, currentConv, List.get?_eq_getElem?, List.getElem?_set_self h]

theorem currentConv_applyResponse_success (st : PageState) (d : BackendResponse)
    (h : st.currentIndex < st.conversations.length) (hs : d.success = true) :
    currentConv (applyResponse st (.ok d))
      = { messages := (currentConv st).messages ++ [responseMessage (.ok d)]
          restaurants := d.restaurants.getD (currentConv st).restaurants
          sessionId := d.session_id } := by
  cases hf : d.filter_state <;>
    simp [applyResponse, hs, hf, currentConv, List.get?_eq_getElem?,
      List.getElem?_set_self h]

theorem conversations_get?_applyResponse_ne (st : PageState) (o : FetchOutcome)
    (j : Nat) (hj : j ≠ st.currentIndex) :
    (applyResponse st o).conversations.get? j = st.conversations.get? j := by
  cases o with
  | ok d =>
    by_cases hs : d.success = true
    · cases hf : d.filter_state <;>
        simp [applyResponse, hs, hf, List.get?_eq_getElem?,
          List.getElem?_set_ne (Ne.symm hj)]
    · simp [applyResponse, hs, List.get?_eq_getElem?, List.getElem?_set_ne (Ne.symm hj)]
  | networkError msg =>
    simp [applyResponse, List.get?_eq_getElem?, List.getElem?_set_ne (Ne.symm hj)]

theorem conversations_get?_appendUserMessage_ne (st : PageState) (q : String)
    (j : Nat) (hj : j ≠ st.currentIndex) :
    (appendUserMessage st q).conversations.get? j = st.conversations.get? j := by
  simp [appendUserMessage, List.get?_eq_getElem?, List.getElem?_set_ne (Ne.symm hj)]

theorem length_handleSend (st : PageState) (q : String) (o : FetchOutcome) :
    (handleSend st q o).conversations.length = st.conversations.length := by
  rw [handleSend, length_applyResponse, length_appendUserMessage]

theorem currentIndex_handleSend (st : PageState) (q : String) (o : FetchOutcome) :
    (handleSend st q o).currentIndex = st.currentIndex := by
  rw [handleSend, currentIndex_applyResponse, currentIndex_appendUserMessage]

theorem messages_currentConv_handleSend (st : PageState) (q : String) (o : FetchOutcome)
    (h : st.currentIndex < st.conversations.length) :
    (currentConv (handleSend st q o)).messages
      = (currentConv st).messages ++ [userMessage q, responseMessage o] := by
  have h2 : (appendUserMessage st q).currentIndex
      < (appendUserMessage st q).conversations.length := by
    rw [length_appendUserMessage, currentIndex_appendUserMessage]; exact h
  rw [handleSend, messages_currentConv_applyResponse _ _ h2,
    currentConv_appendUserMessage st q h]
  simp

theorem currentConv_handleSend_success (st : PageState) (q : String) (d : BackendResponse)
    (h : st.currentIndex < st.conversations.length) (hs : d.success = true) :
    currentConv (handleSend st q (.ok d))
      = { messages := (currentConv st).messages ++ [userMessage q, responseMessage (.ok d)]
          restaurants := d.restaurants.getD (currentConv st).restaurants
          sessionId := d.session_id } := by
  have h2 : (appendUserMessage st q).currentIndex
      < (appendUserMessage st q).conversations.length := by
    rw [length_appendUserMessage, currentIndex_appendUserMessage]; exact h
  rw [handleSend, currentConv_applyResponse_success _ _ h2 hs,
    currentConv_appendUserMessage st q h]
  simp

theorem currentConv_newConversation (st : PageState) :
    currentConv (newConversation st) = emptyConversation := by
  simp [currentConv, newConversation, List.get?_eq_getElem?, List.getElem?_concat_length]

theorem enumFrom_filter_ne_map_snd (l : List Conversation) :
    ∀ n i : Nat,
      ((List.enumFrom n l).filter (fun p => p.1 ≠ n + i)).map Prod.snd = l.eraseIdx i := by
  induction l with
  | nil => intro n i; rfl
  | cons a t ih =>
    intro n i
    cases i with
    | zero =>
      rw [List.enumFrom_cons, List.filter_cons]
      have hhead : (decide ((n, a).1 ≠ n + 0)) = false := by simp
      rw [hhead]
      have hkeep : (List.enumFrom (n + 1) t).filter (fun p => p.1 ≠ n + 0)
          = List.enumFrom (n + 1) t := by
        apply List.filter_eq_self.mpr
        rintro ⟨j, x⟩ hp
        have h1 := (List.mem_enumFrom hp).1
        simp only [decide_eq_true_eq]
        omega
      rw [if_neg (by simp), hkeep, List.enumFrom_map_snd, List.eraseIdx_cons_zero]
    | succ i =>
      rw [List.enumFrom_cons, List.filter_cons]
      have hhead : (decide ((n, a).1 ≠ n + (i + 1))) = true := by
        simp only [decide_eq_true_eq]
        omega
      rw [hhead, if_pos rfl, List.map_cons, List.eraseIdx_cons_succ]
      have harith : n + (i + 1) = (n + 1) + i := by omega
      rw [harith, ih (n + 1) i]

theorem removeAtIndex_eq_eraseIdx (l : List Conversation) (i : Nat) :
    removeAtIndex l i = l.eraseIdx i := by
  have := enumFrom_filter_ne_map_snd l 0 i
  simpa [removeAtIndex, List.enum] using this

theorem length_removeAtIndex (l : List Conversation) (i : Nat) (h : i < l.length) :
    (removeAtIndex l i).length = l.length - 1 := by
  rw [removeAtIndex_eq_eraseIdx, List.length_eraseIdx]
  simp [h]

/-- The well-formedness invariant of the conversation list: it is never
empty and the current index points into it. -/
def ConvInvariant (st : PageState) : Prop :=
  0 < st.conversations.length ∧ st.currentIndex < st.conversations.length

theorem convInvariant_initState (stored : Option (List Conversation)) :
    ConvInvariant (initState stored) := by
  constructor
  · cases stored with
    | none => simp [initState, loadConversationsFromStorage]
    | some parsed =>
      by_cases hp : parsed.length > 0
      · simp [initState, loadConversationsFromStorage, hp]
      · simp [initState, loadConversationsFromStorage, hp]
  · cases stored with
    | none => simp [initState, loadConversationsFromStorage]
    | some parsed =>
      by_cases hp : parsed.length > 0
      · simp [initState, loadConversationsFromStorage, hp]
      · simp [initState, loadConversationsFromStorage, hp]

theorem convInvariant_stepOp (st : PageState) (op : PageOp)
    (h : ConvInvariant st) : ConvInvariant (stepOp st op) := by
  obtain ⟨hpos, hidx⟩ := h
  cases op with
  | send q o =>
    refine ⟨?_, ?_⟩
    · rw [stepOp, length_handleSend]; exact hpos
    · rw [stepOp, length_handleSend, currentIndex_handleSend]; exact hidx
  | newConv =>
    refine ⟨?_, ?_⟩ <;> simp [stepOp, newConversation]
  | deleteConv =>
    by_cases h1 : st.conversations.length = 1
    · refine ⟨?_, ?_⟩ <;> simp [stepOp, deleteConversation, h1] <;> omega
    · have h2 : 2 ≤ st.conversations.length := by omega
      have hlen : (removeAtIndex st.conversations st.currentIndex).length
          = st.conversations.length - 1 := length_removeAtIndex _ _ hidx
      refine ⟨?_, ?_⟩ <;>
        simp only [stepOp, deleteConversation, h1, if_false, hlen] <;>
        first
          | omega
          | (split <;> omega)
  | prevConv =>
    by_cases h0 : 0 < st.currentIndex
    · refine ⟨?_, ?_⟩ <;> simp [stepOp, prevConversation, h0] <;> omega
    · refine ⟨?_, ?_⟩ <;> simp [stepOp, prevConversation, h0] <;> assumption
  | nextConv =>
    by_cases h0 : st.currentIndex < st.conversations.length - 1
    · refine ⟨?_, ?_⟩ <;> simp [stepOp, nextConversation, h0] <;> omega
    · refine ⟨?_, ?_⟩ <;> simp [stepOp, nextConversation, h0] <;> assumption

theorem convInvariant_runOps (st : PageState) (ops : List PageOp)
    (h : ConvInvariant st) : ConvInvariant (runOps st ops) := by
  induction ops generalizing st with
  | nil => exact h
  | cons op rest ih => exact ih _ (convInvariant_stepOp st op h)

theorem allRestaurants_get?_of_message (msgs : List Message) :
    ∀ (i : Nat) (m : Message) (k : Nat),
      msgs.get? i = some m → k < (restaurantsOf m).length →
      (allRestaurants msgs).get? (startingIndex msgs i + k) = (restaurantsOf m).get? k := by
  induction msgs with
  | nil =>
    intro i m k hm _
    simp at hm
  | cons m0 rest ih =>
    intro i m k hm hk
    cases i with
    | zero =>
      rw [List.get?_cons_zero] at hm
      injection hm with hm
      subst hm
      rw [startingIndex_zero, Nat.zero_add, allRestaurants_eq_flatten, List.map_cons,
        List.flatten_cons, List.get?_eq_getElem?, List.getElem?_append_left hk,
        ← List.get?_eq_getElem?]
    | succ i =>
      rw [List.get?_cons_succ] at hm
      rw [startingIndex_cons_succ, allRestaurants_eq_flatten, List.map_cons, List.flatten_cons]
      have hle : (restaurantsOf m0).length
          ≤ (restaurantsOf m0).length + startingIndex rest i + k := by omega
      rw [List.get?_eq_getElem?, List.getElem?_append_right hle]
      have harith : (restaurantsOf m0).length + startingIndex rest i + k
          - (restaurantsOf m0).length = startingIndex rest i + k := by omega
      rw [harith, ← List.get?_eq_getElem?, ← allRestaurants_eq_flatten]
      exact ih i m k hm hk

/-! ### Concrete example data (used by witnesses and counterexamples) -/

/-- A concrete venue used by the example states. -/
def demoVenue : Venue := { name := "Luigi Pizzeria", latitude := 37, longitude := -122 }

/-- A second concrete venue. -/
def demoVenue2 : Venue := { name := "Golden Wok", latitude := 38, longitude := -121 }

/-- A third concrete venue. -/
def demoVenue3 : Venue := { name := "Taco Town", latitude := 39, longitude := -120 }

/-- A concrete successful backend response. -/
def demoResponse : BackendResponse :=
  { success := true, responseText := "Here are some places",
    restaurants := some [demoVenue], session_id := some "sess-1",
    error := "", filter_state := none }

/-- An assistant message carrying two venues. -/
def demoMsg1 : Message :=
  { role := "assistant", content := "first results", restaurants := some [demoVenue, demoVenue2] }

/-- An assistant message carrying one venue. -/
def demoMsg2 : Message :=
  { role := "assistant", content := "second results", restaurants := some [demoVenue3] }

/-- A two-turn conversation transcript. -/
def demoMsgs : List Message := [demoMsg1, demoMsg2]

/-- Two assistant turns that both attach `demoVenue`. -/
def dupMsgs : List Message :=
  [{ role := "assistant", content := "turn 1", restaurants := some [demoVenue] },
   { role := "assistant", content := "turn 2", restaurants := some [demoVenue] }]

/-- The browser event trace in which a second turn request arrives while the
first is still in flight, and then the first completes. -/
def demoTrace : List UiEvent :=
  [.attempt "pizza", .attempt "sushi", .complete (.ok demoResponse)]

/-- A concrete filter state whose dietary set holds a normal tag and the
empty-string tag (dietary arrives verbatim from
`data.filter_state.filters.dietary`, so an empty-string element is
reachable, and the chips pass each element as the removal `value`). -/
def demoFilterState : FilterState :=
  { cuisine := some "Italian", price_level := some 2, rating := none,
    distance := 5, dietary := ["vegan", ""], sort_by := none }

/-! ### Claims -/

/-- C1 (counterexample): the cumulative map-display set is claimed to
contain no duplicate identities, but `allRestaurants` concatenates the
turns' venue lists without any deduplication — a venue attached to two
turns appears twice, so accumulating the same `VenueRecord` twice does not
yield the same set as accumulating it once. -/
theorem allRestaurants_repeats_duplicate_identity :
    allRestaurants dupMsgs = [demoVenue, demoVenue] ∧
    sameVenue demoVenue demoVenue = true ∧
    ¬ (allRestaurants dupMsgs).Nodup := by
  refine ⟨rfl, rfl, ?_⟩
  decide

/-- C1 (amended): the cumulative result list used for map display is the
in-order concatenation of every turn's attached venue list, with no
deduplication; accumulating one more turn appends its venues verbatim, so
a venue already present is added again. -/
theorem allRestaurants_is_concatenation_without_dedup
    (msgs : List Message) (m : Message) :
    allRestaurants msgs = (msgs.map restaurantsOf).flatten ∧
    allRestaurants (msgs ++ [m]) = allRestaurants msgs ++ restaurantsOf m := by
  refine ⟨allRestaurants_eq_flatten msgs, ?_⟩
  rw [allRestaurants_eq_flatten, allRestaurants_eq_flatten, List.map_append,
    List.flatten_append]
  simp

/-- C2: a turn that ends in the Failed terminal state — the backend
reported failure or the fetch threw — leaves the session's active filter
state exactly as it was before the turn; only the success branch of
`handleSend` calls `setActiveFilters`. -/
theorem failed_turn_preserves_active_filters (st : PageState) (q : String)
    (o : FetchOutcome) (h : isFailedOutcome o = true) :
    (handleSend st q o).activeFilters = st.activeFilters := by
  cases o with
  | ok d =>
    have hs : d.success = false := by
      simpa [isFailedOutcome] using h
    rw [handleSend]
    simp [applyResponse, hs, activeFilters_appendUserMessage]
  | networkError msg =>
    rw [handleSend]
    simp [applyResponse, activeFilters_appendUserMessage]

/-- Witness for C2 at a concrete failed turn. -/
theorem failed_turn_preserves_active_filters_witness :
    isFailedOutcome (.networkError "connection refused") = true ∧
    (handleSend (initState none) "pizza" (.networkError "connection refused")).activeFilters
      = (initState none).activeFilters :=
  ⟨rfl, failed_turn_preserves_active_filters (initState none) "pizza"
    (.networkError "connection refused") rfl⟩

/-- C3 (counterexample): two turn requests arrive while the first is still
in flight; the claim says the second is queued and processed strictly after
the first commits, but the `loading` guard drops it — after the first turn
commits, the conversation holds only the first turn's messages and the
second request's user message was never processed. -/
theorem concurrent_second_request_dropped_not_queued :
    (currentConv (runUi uiInitState demoTrace).page).messages
        = [userMessage "pizza", responseMessage (.ok demoResponse)] ∧
    userMessage "sushi" ∉ (currentConv (runUi uiInitState demoTrace).page).messages ∧
    (runUi uiInitState demoTrace).loading = false := by
  refine ⟨rfl, by decide, rfl⟩

/-- C3 (amended): at most one pipeline execution is in flight per session at
any time because `handleSend` returns immediately while `loading` is set —
a concurrent second request is dropped as a no-op on the whole UI state,
not queued for processing after the first commits. -/
theorem attempt_while_loading_is_noop (st : UiState) (q : String)
    (h : st.loading = true) : uiAttemptSend st q = st := by
  simp [uiAttemptSend, h]

/-- Witness for the amended C3 at a concrete loading state. -/
theorem attempt_while_loading_is_noop_witness :
    (UiState.mk (initState none) true).loading = true ∧
    uiAttemptSend (UiState.mk (initState none) true) "sushi"
      = UiState.mk (initState none) true :=
  ⟨rfl, attempt_while_loading_is_noop (UiState.mk (initState none) true) "sushi" rfl⟩

/-- C4: the request carries the conversation's current opaque session id,
a brand-new conversation carries null, and after a successful turn the
session id returned by the backend is stored on the conversation and is
the id the next turn's request carries. -/
theorem session_id_round_trip (st : PageState) (q q2 : String) (d : BackendResponse)
    (hidx : st.currentIndex < st.conversations.length) (hs : d.success = true) :
    (buildRequest st q).session_id = (currentConv st).sessionId ∧
    (currentConv (handleSend st q (.ok d))).sessionId = d.session_id ∧
    (buildRequest (handleSend st q (.ok d)) q2).session_id = d.session_id ∧
    (currentConv (newConversation st)).sessionId = none ∧
    (buildRequest (newConversation st) q2).session_id = none := by
  have hcur := currentConv_handleSend_success st q d hidx hs
  refine ⟨rfl, ?_, ?_, ?_, ?_⟩
  · rw [hcur]
  · show (currentConv (handleSend st q (.ok d))).sessionId = d.session_id
    rw [hcur]
  · rw [currentConv_newConversation]; rfl
  · show (currentConv (newConversation st)).sessionId = none
    rw [currentConv_newConversation]; rfl

/-- Witness for C4 at the initial state and a concrete successful response. -/
theorem session_id_round_trip_witness :
    ((initState none).currentIndex < (initState none).conversations.length ∧
      demoResponse.success = true) ∧
    ((buildRequest (initState none) "pizza").session_id
        = (currentConv (initState none)).sessionId ∧
      (currentConv (handleSend (initState none) "pizza" (.ok demoResponse))).sessionId
        = demoResponse.session_id ∧
      (buildRequest (handleSend (initState none) "pizza" (.ok demoResponse)) "more").session_id
        = demoResponse.session_id ∧
      (currentConv (newConversation (initState none))).sessionId = none ∧
      (buildRequest (newConversation (initState none)) "more").session_id = none) :=
  ⟨⟨by decide, rfl⟩,
    session_id_round_trip (initState none) "pizza" "more" demoResponse (by decide) rfl⟩

/-- C5: clearing all filters replaces the whole filter state in one step,
resetting distance to the system default 5, the dietary set to empty, and
every other field (cuisine, price_level, rating, sort_by) to absent. -/
theorem clear_all_filters_resets_every_field (fs : FilterState) :
    (clearAllFilters fs).cuisine = none ∧
    (clearAllFilters fs).price_level = none ∧
    (clearAllFilters fs).rating = none ∧
    (clearAllFilters fs).sort_by = none ∧
    (clearAllFilters fs).distance = 5 ∧
    (clearAllFilters fs).dietary = [] ∧
    clearAllFilters fs = defaultFilterState :=
  ⟨rfl, rfl, rfl, rfl, rfl, rfl, rfl⟩

/-- C6 (counterexample): a removal directive naming the empty-string
dietary tag does not remove exactly that tag — `value` is falsy, so
`handleRemoveFilter` falls through to `updated['dietary'] = null` and wipes
the whole dietary field: the result is null rather than the exact-removal
result `["vegan"]`, and rather than the unchanged set. -/
theorem empty_dietary_tag_wipes_dietary_field :
    (handleRemoveFilter demoFilterState FilterField.dietary (some "")).dietary = none ∧
    some (demoFilterState.dietary.filter (fun d => d ≠ "")) = some ["vegan"] ∧
    (handleRemoveFilter demoFilterState FilterField.dietary (some "")).dietary
      ≠ some (demoFilterState.dietary.filter (fun d => d ≠ "")) ∧
    (handleRemoveFilter demoFilterState FilterField.dietary (some "")).dietary
      ≠ some demoFilterState.dietary := by
  refine ⟨rfl, by decide, by decide, by decide⟩

/-- C6 (amended): a removal directive naming one non-dietary field clears
exactly that field (distance resets to the default 5, the others to null)
and leaves every other filter field unchanged; a directive naming one
non-empty dietary tag removes exactly that tag from the dietary set and
leaves everything else unchanged; but a dietary removal whose tag value is
falsy — the empty-string tag, or a missing value — nulls the entire
dietary field instead of removing one tag. -/
theorem remove_filter_clears_named_field_nonempty_tag
    (fs : FilterState) (tag u : String) (htag : tag ≠ "") :
    ((handleRemoveFilter fs .cuisine none).cuisine = none ∧
      (handleRemoveFilter fs .cuisine none).price_level = fs.price_level ∧
      (handleRemoveFilter fs .cuisine none).rating = fs.rating ∧
      (handleRemoveFilter fs .cuisine none).distance = some fs.distance ∧
      (handleRemoveFilter fs .cuisine none).dietary = some fs.dietary ∧
      (handleRemoveFilter fs .cuisine none).sort_by = fs.sort_by) ∧
    ((handleRemoveFilter fs .price_level none).price_level = none ∧
      (handleRemoveFilter fs .price_level none).cuisine = fs.cuisine ∧
      (handleRemoveFilter fs .price_level none).rating = fs.rating ∧
      (handleRemoveFilter fs .price_level none).distance = some fs.distance ∧
      (handleRemoveFilter fs .price_level none).dietary = some fs.dietary ∧
      (handleRemoveFilter fs .price_level none).sort_by = fs.sort_by) ∧
    ((handleRemoveFilter fs .rating none).rating = none ∧
      (handleRemoveFilter fs .rating none).cuisine = fs.cuisine ∧
      (handleRemoveFilter fs .rating none).price_level = fs.price_level ∧
      (handleRemoveFilter fs .rating none).distance = some fs.distance ∧
      (handleRemoveFilter fs .rating none).dietary = some fs.dietary ∧
      (handleRemoveFilter fs .rating none).sort_by = fs.sort_by) ∧
    ((handleRemoveFilter fs .distance none).distance = some 5 ∧
      (handleRemoveFilter fs .distance none).cuisine = fs.cuisine ∧
      (handleRemoveFilter fs .distance none).price_level = fs.price_level ∧
      (handleRemoveFilter fs .distance none).rating = fs.rating ∧
      (handleRemoveFilter fs .distance none).dietary = some fs.dietary ∧
      (handleRemoveFilter fs .distance none).sort_by = fs.sort_by) ∧
    ((handleRemoveFilter fs .sort_by none).sort_by = none ∧
      (handleRemoveFilter fs .sort_by none).cuisine = fs.cuisine ∧
      (handleRemoveFilter fs .sort_by none).price_level = fs.price_level ∧
      (handleRemoveFilter fs .sort_by none).rating = fs.rating ∧
      (handleRemoveFilter fs .sort_by none).distance = some fs.distance ∧
      (handleRemoveFilter fs .sort_by none).dietary = some fs.dietary) ∧
    ((handleRemoveFilter fs .dietary (some tag)).dietary
        = some (fs.dietary.filter (fun d => d ≠ tag)) ∧
      (u ∈ fs.dietary.filter (fun d => d ≠ tag) ↔ u ∈ fs.dietary ∧ u ≠ tag) ∧
      (handleRemoveFilter fs .dietary (some tag)).cuisine = fs.cuisine ∧
      (handleRemoveFilter fs .dietary (some tag)).price_level = fs.price_level ∧
      (handleRemoveFilter fs .dietary (some tag)).rating = fs.rating ∧
      (handleRemoveFilter fs .dietary (some tag)).distance = some fs.distance ∧
      (handleRemoveFilter fs .dietary (some tag)).sort_by = fs.sort_by) ∧
    ((handleRemoveFilter fs .dietary (some "")).dietary = none ∧
      (handleRemoveFilter fs .dietary none).dietary = none) := by
  have htr : isTruthy (some tag) = true := by simp [isTruthy, htag]
  have hcond : (FilterField.dietary = FilterField.dietary ∧ isTruthy (some tag) = true) :=
    ⟨rfl, htr⟩
  have hfilter : fs.dietary.filter (fun d => some d ≠ some tag)
      = fs.dietary.filter (fun d => d ≠ tag) := by
    apply List.filter_congr
    intro d _
    simp
  refine ⟨⟨rfl, rfl, rfl, rfl, rfl, rfl⟩, ⟨rfl, rfl, rfl, rfl, rfl, rfl⟩,
    ⟨rfl, rfl, rfl, rfl, rfl, rfl⟩, ⟨rfl, rfl, rfl, rfl, rfl, rfl⟩,
    ⟨rfl, rfl, rfl, rfl, rfl, rfl⟩, ⟨?_, ?_, ?_, ?_, ?_, ?_, ?_⟩, ⟨rfl, rfl⟩⟩
  · rw [handleRemoveFilter, if_pos hcond]
    simp [hfilter]
  · simp [List.mem_filter]
  · rw [handleRemoveFilter, if_pos hcond]; rfl
  · rw [handleRemoveFilter, if_pos hcond]; rfl
  · rw [handleRemoveFilter, if_pos hcond]; rfl
  · rw [handleRemoveFilter, if_pos hcond]; rfl
  · rw [handleRemoveFilter, if_pos hcond]; rfl

/-- Witness for the amended C6 at a concrete state and the non-empty tag
"vegan". -/
theorem remove_filter_clears_named_field_nonempty_tag_witness :
    ("vegan" : String) ≠ "" ∧
    (((handleRemoveFilter demoFilterState .cuisine none).cuisine = none ∧
      (handleRemoveFilter demoFilterState .cuisine none).price_level
        = demoFilterState.price_level ∧
      (handleRemoveFilter demoFilterState .cuisine none).rating = demoFilterState.rating ∧
      (handleRemoveFilter demoFilterState .cuisine none).distance
        = some demoFilterState.distance ∧
      (handleRemoveFilter demoFilterState .cuisine none).dietary
        = some demoFilterState.dietary ∧
      (handleRemoveFilter demoFilterState .cuisine none).sort_by
        = demoFilterState.sort_by) ∧
    ((handleRemoveFilter demoFilterState .price_level none).price_level = none ∧
      (handleRemoveFilter demoFilterState .price_level none).cuisine
        = demoFilterState.cuisine ∧
      (handleRemoveFilter demoFilterState .price_level none).rating
        = demoFilterState.rating ∧
      (handleRemoveFilter demoFilterState .price_level none).distance
        = some demoFilterState.distance ∧
      (handleRemoveFilter demoFilterState .price_level none).dietary
        = some demoFilterState.dietary ∧
      (handleRemoveFilter demoFilterState .price_level none).sort_by
        = demoFilterState.sort_by) ∧
    ((handleRemoveFilter demoFilterState .rating none).rating = none ∧
      (handleRemoveFilter demoFilterState .rating none).cuisine
        = demoFilterState.cuisine ∧
      (handleRemoveFilter demoFilterState .rating none).price_level
        = demoFilterState.price_level ∧
      (handleRemoveFilter demoFilterState .rating none).distance
        = some demoFilterState.distance ∧
      (handleRemoveFilter demoFilterState .rating none).dietary
        = some demoFilterState.dietary ∧
      (handleRemoveFilter demoFilterState .rating none).sort_by
        = demoFilterState.sort_by) ∧
    ((handleRemoveFilter demoFilterState .distance none).distance = some 5 ∧
      (handleRemoveFilter demoFilterState .distance none).cuisine
        = demoFilterState.cuisine ∧
      (handleRemoveFilter demoFilterState .distance none).price_level
        = demoFilterState.price_level ∧
      (handleRemoveFilter demoFilterState .distance none).rating
        = demoFilterState.rating ∧
      (handleRemoveFilter demoFilterState .distance none).dietary
        = some demoFilterState.dietary ∧
      (handleRemoveFilter demoFilterState .distance none).sort_by
        = demoFilterState.sort_by) ∧
    ((handleRemoveFilter demoFilterState .sort_by none).sort_by = none ∧
      (handleRemoveFilter demoFilterState .sort_by none).cuisine
        = demoFilterState.cuisine ∧
      (handleRemoveFilter demoFilterState .sort_by none).price_level
        = demoFilterState.price_level ∧
      (handleRemoveFilter demoFilterState .sort_by none).rating
        = demoFilterState.rating ∧
      (handleRemoveFilter demoFilterState .sort_by none).distance
        = some demoFilterState.distance ∧
      (handleRemoveFilter demoFilterState .sort_by none).dietary
        = some demoFilterState.dietary) ∧
    ((handleRemoveFilter demoFilterState .dietary (some "vegan")).dietary
        = some (demoFilterState.dietary.filter (fun d => d ≠ "vegan")) ∧
      ("halal" ∈ demoFilterState.dietary.filter (fun d => d ≠ "vegan")
        ↔ "halal" ∈ demoFilterState.dietary ∧ ("halal" : String) ≠ "vegan") ∧
      (handleRemoveFilter demoFilterState .dietary (some "vegan")).cuisine
        = demoFilterState.cuisine ∧
      (handleRemoveFilter demoFilterState .dietary (some "vegan")).price_level
        = demoFilterState.price_level ∧
      (handleRemoveFilter demoFilterState .dietary (some "vegan")).rating
        = demoFilterState.rating ∧
      (handleRemoveFilter demoFilterState .dietary (some "vegan")).distance
        = some demoFilterState.distance ∧
      (handleRemoveFilter demoFilterState .dietary (some "vegan")).sort_by
        = demoFilterState.sort_by) ∧
    ((handleRemoveFilter demoFilterState .dietary (some "")).dietary = none ∧
      (handleRemoveFilter demoFilterState .dietary none).dietary = none)) :=
  ⟨by decide,
    remove_filter_clears_named_field_nonempty_tag demoFilterState "vegan" "halal"
      (by decide)⟩

/-- C7: a completed turn only appends to the current conversation's ordered
message sequence — the new transcript is the old one followed by the user
turn and the assistant (or error) turn — and touches no other conversation;
`handleNewConversation` appends a fresh conversation and leaves every
existing one untouched. -/
theorem handleSend_only_appends_turns (st : PageState) (q : String)
    (o : FetchOutcome) (j : Nat)
    (h : st.currentIndex < st.conversations.length)
    (hj : j ≠ st.currentIndex) :
    (currentConv (handleSend st q o)).messages
      = (currentConv st).messages ++ [userMessage q, responseMessage o] ∧
    (handleSend st q o).conversations.get? j = st.conversations.get? j ∧
    (newConversation st).conversations = st.conversations ++ [emptyConversation] ∧
    (j < st.conversations.length →
      (newConversation st).conversations.get? j = st.conversations.get? j) := by
  refine ⟨messages_currentConv_handleSend st q o h, ?_, rfl, ?_⟩
  · rw [handleSend]
    rw [conversations_get?_applyResponse_ne _ _ _
      (by rw [currentIndex_appendUserMessage]; exact hj)]
    exact conversations_get?_appendUserMessage_ne st q j hj
  · intro hjlen
    simp [newConversation, List.get?_eq_getElem?, List.getElem?_append_left hjlen]

/-- Witness for C7 at the initial state, a concrete turn, and index 1. -/
theorem handleSend_only_appends_turns_witness :
    ((initState none).currentIndex < (initState none).conversations.length ∧
      (1 : Nat) ≠ (initState none).currentIndex) ∧
    ((currentConv (handleSend (initState none) "pizza" (.ok demoResponse))).messages
        = (currentConv (initState none)).messages
            ++ [userMessage "pizza", responseMessage (.ok demoResponse)] ∧
      (handleSend (initState none) "pizza" (.ok demoResponse)).conversations.get? 1
        = (initState none).conversations.get? 1 ∧
      (newConversation (initState none)).conversations
        = (initState none).conversations ++ [emptyConversation] ∧
      (1 < (initState none).conversations.length →
        (newConversation (initState none)).conversations.get? 1
          = (initState none).conversations.get? 1)) :=
  ⟨⟨by decide, by decide⟩,
    handleSend_only_appends_turns (initState none) "pizza" (.ok demoResponse) 1
      (by decide) (by decide)⟩

/-- C8 (counterexample): not every presentation of a venue's rating treats
it as a value out of 5 — the chat restaurant card of the deployed
ChatMessage component renders the rating over 10, not over 5, and the map
info window renders it over 10.0. -/
theorem rating_presentation_not_out_of_five :
    chatCardRatingChip "4.2" = "4.2/10" ∧
    chatCardRatingChip "4.2" ≠ specRatingOutOfFive "4.2" ∧
    mapInfoRatingLine "4.2"
      = "<div style=\"margin: 5px 0; font-size: 14px;\">⭐ <b>4.2</b> / 10.0</div>" := by
  refine ⟨rfl, by decide, by decide⟩

/-- C8 (amended): the rating presentations disagree on the scale — the
ChatMessage variant at src/unnamed/part_007 renders the rating out of five,
while the deployed ChatMessage card and the map marker info window render
the same rating field out of ten, so the presentations cannot all be
readings of one canonical 0-5 scale. -/
theorem rating_presentations_mixed_scales (s : String) :
    chatCardRatingChipAlt s = specRatingOutOfFive s ∧
    chatCardRatingChip s = s ++ "/10" ∧
    chatCardRatingChip s ≠ specRatingOutOfFive s ∧
    mapInfoRatingLine s
      = "<div style=\"margin: 5px 0; font-size: 14px;\">⭐ <b>" ++ s ++ "</b> / 10.0</div>" := by
  refine ⟨rfl, rfl, ?_, rfl⟩
  intro hcontr
  have h2 : (s ++ "/10").data = (s ++ "/5").data := by
    simpa [chatCardRatingChip, specRatingOutOfFive] using congrArg String.data hcontr
  rw [String.data_append, String.data_append] at h2
  have h3 := List.append_cancel_left h2
  have h4 : ("/10" : String).data ≠ ("/5" : String).data := by decide
  exact h4 h3

/-- C9: from every initial state — whatever was in storage, including the
missing/invalid fallback — and after every sequence of send, new-, delete-,
previous- and next-conversation operations, the conversations list is
non-empty and the current conversation index is a valid index into it. -/
theorem conversation_list_invariant_reachable
    (stored : Option (List Conversation)) (ops : List PageOp) :
    0 < (runOps (initState stored) ops).conversations.length ∧
    (runOps (initState stored) ops).currentIndex
      < (runOps (initState stored) ops).conversations.length :=
  convInvariant_runOps (initState stored) ops (convInvariant_initState stored)

/-- C10: restaurant cards are numbered consecutively across the whole
conversation — a message's cards start at one plus the total count of
restaurants attached to all earlier messages, and the card labeled n shows
the n-th restaurant (1-based) of the conversation-wide cumulative list. -/
theorem card_labels_consecutive_across_conversation
    (msgs : List Message) (i : Nat) (m : Message) (k : Nat)
    (hm : msgs.get? i = some m) (hk : k < (restaurantsOf m).length) :
    cardLabel msgs i k = startingIndex msgs i + k + 1 ∧
    (allRestaurants msgs).get? (cardLabel msgs i k - 1) = (restaurantsOf m).get? k := by
  refine ⟨rfl, ?_⟩
  have hidx : cardLabel msgs i k - 1 = startingIndex msgs i + k := by
    simp [cardLabel]
  rw [hidx]
  exact allRestaurants_get?_of_message msgs i m k hm hk

/-- Witness for C10: in the two-turn example transcript, the single card of
the second message is labeled 3 and shows the third restaurant overall. -/
theorem card_labels_consecutive_across_conversation_witness :
    (demoMsgs.get? 1 = some demoMsg2 ∧ 0 < (restaurantsOf demoMsg2).length) ∧
    (cardLabel demoMsgs 1 0 = startingIndex demoMsgs 1 + 0 + 1 ∧
      (allRestaurants demoMsgs).get? (cardLabel demoMsgs 1 0 - 1)
        = (restaurantsOf demoMsg2).get? 0) :=
  ⟨⟨rfl, by decide⟩,
    card_labels_consecutive_across_conversation demoMsgs 1 demoMsg2 0 rfl (by decide)⟩

end RestaurantFinder
